import Mathlib

/-!
Verification of the resource/lifetime core of a WebGPU-style GPU abstraction
layer, shallowly embedded from the Rust sources (`src/buffer.rs`, `src/lib.rs`,
`src/backend/direct.rs`, `src/backend/no_alloc_future.rs`,
`src/backend/native_gpu_future.rs`).

Conventions of the embedding:
* `BufferAddress` (`u64` in the source) is modelled as `Nat`; none of the
  properties below depends on 64-bit wrap-around, and every concrete witness
  stays far below `2^64`.
* a Rust `assert!` failure (panic) is modelled by `Option.none` from the
  function that contains the assertion;
* wakers are modelled by opaque numeric identifiers;
* the mutex-guarded shared cells of the two future implementations are
  modelled as explicit states, and the observable interleavings of `poll` and
  `complete` as a step relation on those states.
-/

set_option autoImplicit false

namespace Wgpu

abbrev BufferAddress := Nat

/-- Embedding of `Buffer` (`src/buffer.rs`): a handle carrying a buffer id and
its device id. -/
structure Buffer where
  id : Nat
  device_id : Nat
deriving DecidableEq, Repr

/-- Embedding of `BufferRange<'a, Bounded>`: buffer, offset, and a known size
(`Storage = BufferAddress`). -/
structure BufferRangeBounded where
  buffer : Buffer
  offset : BufferAddress
  size : BufferAddress
deriving DecidableEq, Repr

/-- Embedding of `BufferRange<'a, Unbounded>`: buffer and offset; the size
storage `ToEnd` carries no data. -/
structure BufferRangeUnbounded where
  buffer : Buffer
  offset : BufferAddress
deriving DecidableEq, Repr

/-- Embedding of `BufferRange<'a, Unsure>`: buffer, offset, and an optional
size (`Storage = Option<BufferAddress>`). -/
structure BufferRangeUnsure where
  buffer : Buffer
  offset : BufferAddress
  size : Option BufferAddress
deriving DecidableEq, Repr

/-- `impl RangedBuffer<'a, ToEnd, Unbounded> for &'a Buffer` (buffer.rs:141):
stores the given offset directly. -/
def Buffer.rangeToEnd (self : Buffer) (offset : BufferAddress) : BufferRangeUnbounded :=
  { buffer := self, offset := offset }

/-- `impl RangedBuffer<'a, BufferAddress, Bounded> for &'a Buffer`
(buffer.rs:150): stores the given offset and size directly. -/
def Buffer.rangeBounded (self : Buffer) (offset size : BufferAddress) : BufferRangeBounded :=
  { buffer := self, offset := offset, size := size }

/-- `impl RangedBuffer<'a, Option<BufferAddress>, Unsure> for &'a Buffer`
(buffer.rs:159). -/
def Buffer.rangeUnsure (self : Buffer) (offset : BufferAddress)
    (size : Option BufferAddress) : BufferRangeUnsure :=
  { buffer := self, offset := offset, size := size }

/-- `Bounded -> Bounded` combination (buffer.rs:170). The source asserts
`self.offset + size <= self.size` before building the new range; an assertion
failure is `none`. Note the assertion compares the parent's absolute offset,
not the sub-offset, against the parent's size. -/
def BufferRangeBounded.rangeBounded (self : BufferRangeBounded)
    (offset size : BufferAddress) : Option BufferRangeBounded :=
  if self.offset + size ≤ self.size then
    some { buffer := self.buffer, offset := self.offset + offset, size := size }
  else
    none

/-- `Bounded -> Bounded` with `ToEnd` (buffer.rs:182): keeps the parent's
size, no assertion. -/
def BufferRangeBounded.rangeToEnd (self : BufferRangeBounded)
    (offset : BufferAddress) : BufferRangeBounded :=
  { buffer := self.buffer, offset := self.offset + offset, size := self.size }

/-- `Unbounded -> Unbounded` (buffer.rs:204): adds offsets, no assertion. -/
def BufferRangeUnbounded.rangeToEnd (self : BufferRangeUnbounded)
    (offset : BufferAddress) : BufferRangeUnbounded :=
  { buffer := self.buffer, offset := self.offset + offset }

/-- `Unbounded -> Bounded` (buffer.rs:213): adds offsets, stores the new
size, no assertion. -/
def BufferRangeUnbounded.rangeBounded (self : BufferRangeUnbounded)
    (offset size : BufferAddress) : BufferRangeBounded :=
  { buffer := self.buffer, offset := self.offset + offset, size := size }

/-- `Unbounded -> Unsure` (buffer.rs:222): adds offsets, stores the optional
size, no assertion. -/
def BufferRangeUnbounded.rangeUnsure (self : BufferRangeUnbounded)
    (offset : BufferAddress) (size : Option BufferAddress) : BufferRangeUnsure :=
  { buffer := self.buffer, offset := self.offset + offset, size := size }

/-- `Unsure -> Unsure` combination (buffer.rs:237). When both the parent and
the sub-range carry a size, the source asserts `old_size >= new_size`; an
assertion failure is `none`. -/
def BufferRangeUnsure.rangeUnsure (self : BufferRangeUnsure)
    (offset : BufferAddress) (size : Option BufferAddress) : Option BufferRangeUnsure :=
  match self.size, size with
  | none, none =>
      some { buffer := self.buffer, offset := self.offset + offset, size := none }
  | some old_size, none =>
      some { buffer := self.buffer, offset := self.offset + offset, size := some old_size }
  | none, some new_size =>
      some { buffer := self.buffer, offset := self.offset + offset, size := some new_size }
  | some old_size, some new_size =>
      if old_size ≥ new_size then
        some { buffer := self.buffer, offset := self.offset + offset, size := some new_size }
      else
        none

/-- `Unsure -> Unsure` through a `StaticSizeStorage` argument (buffer.rs:257):
`ToEnd.to_option()` is `None`, so ranging an `Unsure` range with `ToEnd`
delegates to the `Option` implementation with `none`. -/
def BufferRangeUnsure.rangeToEnd (self : BufferRangeUnsure)
    (offset : BufferAddress) : Option BufferRangeUnsure :=
  self.rangeUnsure offset none

/-- A concrete buffer handle used by the closed evaluation theorems. -/
def sampleBuffer : Buffer := { id := 0, device_id := 0 }

/-- Embedding of `CommandEncoder` (`src/lib.rs`): a handle carrying an
encoder id. -/
structure CommandEncoderHandle where
  id : Nat
deriving DecidableEq, Repr

/-- The argument tuple that `CommandEncoder::copy_buffer_to_buffer` passes to
`wgn::wgpu_command_encoder_copy_buffer_to_buffer`, in positional order. -/
structure CopyBufferToBufferCall where
  encoder : Nat
  source_buffer : Nat
  source_offset : BufferAddress
  destination_buffer : Nat
  destination_offset : BufferAddress
  copy_size : BufferAddress
deriving DecidableEq, Repr

/-- Embedding of `CommandEncoder::copy_buffer_to_buffer` (lib.rs:1119): the
recorded backend call. The source passes `source.offset` both as the source
offset and as the destination offset argument (lib.rs:1128 and lib.rs:1130);
`destination.offset` is not forwarded. -/
def copy_buffer_to_buffer (self : CommandEncoderHandle)
    (source : BufferRangeBounded) (destination : BufferRangeUnbounded) :
    CopyBufferToBufferCall :=
  { encoder := self.id
    source_buffer := source.buffer.id
    source_offset := source.offset
    destination_buffer := destination.buffer.id
    destination_offset := source.offset
    copy_size := source.size }

/-- Embedding of the enum `WakerOrResult<T>`
(`src/backend/no_alloc_future.rs`): the single shared slot of the pinned
`Completer`-based future holds either a registered waker or a completed
result. Wakers are opaque identifiers. -/
inductive WakerOrResult (T : Type) where
  | waker (w : Nat)
  | result (value : T)
deriving DecidableEq, Repr

/-- Observable outcome of one `poll` call: the Rust `Poll::Ready(v)`,
`Poll::Pending`, or a panic (the `unwrap` on missing data in
`native_gpu_future.rs`). -/
inductive PollOutcome (T : Type) where
  | ready (value : T)
  | pending
  | fatal
deriving DecidableEq, Repr

/-- Whether a poll outcome is `Ready`, i.e. consumes the future. -/
def PollOutcome.isReady {T : Type} : PollOutcome T → Bool
  | .ready _ => true
  | _ => false

/-- Embedding of `Future::poll` for the `no_alloc_future` `GpuFuture`
(no_alloc_future.rs:79): take the slot; if it held a result, return `Ready`
leaving the slot empty; otherwise store the caller's waker and return
`Pending`. (The `init` closure run on first poll is a backend side effect and
carries no slot state.) -/
def naPollFn {T : Type} (cell : Option (WakerOrResult T)) (w : Nat) :
    Option (WakerOrResult T) × PollOutcome T :=
  match cell with
  | some (.result v) => (none, .ready v)
  | _ => (some (.waker w), .pending)

/-- Embedding of `Completer::complete` (no_alloc_future.rs:30): replace the
slot with the result; if a waker was present, wake it (returned as `some w`);
if the slot already held a result, the source hits `unreachable!()` — a panic,
modelled as `none`. -/
def completerComplete {T : Type} (cell : Option (WakerOrResult T)) (v : T) :
    Option (Option (WakerOrResult T) × Option Nat) :=
  match cell with
  | some (.result _) => none
  | some (.waker w) => some (some (.result v), some w)
  | none => some (some (.result v), none)

/-- Embedding of `Drop for GpuFuture` (no_alloc_future.rs:108): the drop
issues `wgpu_buffer_unmap` exactly when the slot holds a registered waker. -/
def dropUnmaps {T : Type} (cell : Option (WakerOrResult T)) : Bool :=
  match cell with
  | some (.waker _) => true
  | _ => false

/-- Embedding of `SharedState<T>` (`src/backend/native_gpu_future.rs`): the
mutex-guarded cell of the simple shared-state future. -/
structure SharedState (T : Type) where
  completed : Bool
  waker : Option Nat
  data : Option T
deriving DecidableEq, Repr

/-- The state `GpuFuture::new` builds (native_gpu_future.rs:32). -/
def ngInit {T : Type} : SharedState T :=
  { completed := false, waker := none, data := none }

/-- Embedding of `Future::poll` for the `native_gpu_future` `GpuFuture`
(native_gpu_future.rs:46): first store (or replace with) the caller's waker,
then, if completed, take the data and return `Ready` (`unwrap` of absent data
is a panic, `fatal`); otherwise return `Pending`. -/
def ngPollFn {T : Type} (s : SharedState T) (w : Nat) :
    SharedState T × PollOutcome T :=
  let s1 : SharedState T := { s with waker := some w }
  if s.completed then
    match s.data with
    | some v => ({ s1 with data := none }, .ready v)
    | none => (s1, .fatal)
  else
    (s1, .pending)

/-- The body of the completion callback on a `SharedState` cell: store the
result, mark completed, and take the waker out to wake it (the second
component). This is what `buffer_map_future_wrapper` (direct.rs:1206) does
with the status translated to a result. -/
def ngCompleteFn {T : Type} (s : SharedState T) (v : T) :
    SharedState T × Option Nat :=
  ({ completed := true, waker := none, data := some v }, s.waker)

/-- Embedding of `wgc::resource::BufferMapAsyncStatus` as matched by
`buffer_map_future_wrapper`. -/
inductive BufferMapAsyncStatus where
  | success
  | failure
deriving DecidableEq, Repr

/-- Embedding of `crate::BufferAsyncError`, the unit error type of a failed
buffer mapping. -/
inductive BufferAsyncError where
  | mk
deriving DecidableEq, Repr

/-- The status-to-result translation inside `buffer_map_future_wrapper`
(direct.rs:1214): `Success` becomes `Ok(())`, everything else
`Err(BufferAsyncError)`. -/
def statusToResult : BufferMapAsyncStatus → Except BufferAsyncError Unit
  | .success => .ok ()
  | .failure => .error .mk

/-- Embedding of `buffer_map_future_wrapper` (direct.rs:1206): the completion
callback of the simple shared-state future writes the translated status into
the cell, marks it completed, and wakes any stored waker. It performs no
double-completion check. -/
def buffer_map_future_wrapper (s : SharedState (Except BufferAsyncError Unit))
    (status : BufferMapAsyncStatus) :
    SharedState (Except BufferAsyncError Unit) × Option Nat :=
  ngCompleteFn s (statusToResult status)

/-- A `no_alloc_future` `GpuFuture` instance together with the ghost
observables of the interleaving machine: whether the future is still live
(not yet resolved by a `Ready` poll or dropped) and whether it has been polled
at least once. -/
structure NAFut (T : Type) where
  cell : Option (WakerOrResult T)
  live : Bool
  polled : Bool
deriving DecidableEq, Repr

/-- The freshly created `no_alloc_future` future: empty slot, live,
unpolled. -/
def naInitFut {T : Type} : NAFut T :=
  { cell := none, live := true, polled := false }

/-- One observable step of the `no_alloc_future` machine: a consumer `poll`
(legal only while the future is live) or a backend `complete` (legal only
when it does not panic; a panic has no successor state). Each step is the
atomic mutex-guarded critical section of the source. -/
inductive NAStep {T : Type} : NAFut T → NAFut T → Prop where
  | poll (s : NAFut T) (w : Nat) (hl : s.live = true) :
      NAStep s
        { cell := (naPollFn s.cell w).1,
          live := !(naPollFn s.cell w).2.isReady,
          polled := true }
  | complete (s : NAFut T) (v : T) (c : Option (WakerOrResult T))
      (wk : Option Nat) (h : completerComplete s.cell v = some (c, wk)) :
      NAStep s { cell := c, live := s.live, polled := s.polled }

/-- States of the `no_alloc_future` machine reachable from a fresh future by
any interleaving of polls and completions. -/
inductive NAReach {T : Type} : NAFut T → Prop where
  | init : NAReach naInitFut
  | step {s s' : NAFut T} : NAReach s → NAStep s s' → NAReach s'

/-- A `native_gpu_future` `GpuFuture` instance with the same ghost
observables. -/
structure NGFut (T : Type) where
  st : SharedState T
  live : Bool
  polled : Bool
deriving DecidableEq, Repr

/-- The freshly created `native_gpu_future` future. -/
def ngInitFut {T : Type} : NGFut T :=
  { st := ngInit, live := true, polled := false }

/-- One observable step of the `native_gpu_future` machine: a consumer `poll`
while live (a `fatal` outcome, the `unwrap` panic, has no successor state) or
a backend completion callback with an arbitrary result. -/
inductive NGStep {T : Type} : NGFut T → NGFut T → Prop where
  | poll (s : NGFut T) (w : Nat) (hl : s.live = true)
      (hnf : (ngPollFn s.st w).2 ≠ PollOutcome.fatal) :
      NGStep s
        { st := (ngPollFn s.st w).1,
          live := !(ngPollFn s.st w).2.isReady,
          polled := true }
  | complete (s : NGFut T) (v : T) :
      NGStep s { st := (ngCompleteFn s.st v).1, live := s.live, polled := s.polled }

/-- States of the `native_gpu_future` machine reachable from a fresh
future. -/
inductive NGReach {T : Type} : NGFut T → Prop where
  | init : NGReach ngInitFut
  | step {s s' : NGFut T} : NGReach s → NGStep s s' → NGReach s'

/-- Whatever cell `Completer::complete` succeeds on, the new cell holds the
completed result. -/
theorem completerComplete_result_shape {T : Type} (cell : Option (WakerOrResult T))
    (v : T) (c : Option (WakerOrResult T)) (wk : Option Nat)
    (h : completerComplete cell v = some (c, wk)) : c = some (.result v) := by
  rcases cell with _ | x
  · simp [completerComplete] at h
    exact h.1.symm
  · cases x with
    | waker w0 =>
      simp [completerComplete] at h
      exact h.1.symm
    | result v0 =>
      simp [completerComplete] at h

/-- Inductive invariant of the `no_alloc_future` machine: while the future is
live, a polled future's slot is never empty, and a stored waker implies the
future has been polled. -/
theorem naReach_inv {T : Type} {s : NAFut T} (h : NAReach s) :
    (s.live = true → s.polled = true → s.cell ≠ none)
    ∧ (∀ w, s.cell = some (.waker w) → s.polled = true) := by
  induction h with
  | init =>
    exact ⟨fun _ hp => by simp [naInitFut] at hp,
      fun w hw => by simp [naInitFut] at hw⟩
  | @step s s' hr hs ih =>
    cases hs with
    | poll w hl =>
      refine ⟨fun hlive _ hc => ?_, fun w' _ => rfl⟩
      rcases hcell : s.cell with _ | x
      · simp [naPollFn, hcell] at hc
      · cases x with
        | waker w0 => simp [naPollFn, hcell] at hc
        | result v => simp [naPollFn, hcell, PollOutcome.isReady] at hlive
    | complete v c wk hcc =>
      have hc : c = some (.result v) := completerComplete_result_shape _ _ _ _ hcc
      subst hc
      exact ⟨fun _ _ hc => by simp at hc, fun w' hw' => by simp at hw'⟩

/-- Inductive invariant of the `native_gpu_future` machine: while the future
is live, either it is not completed (data absent, and a waker is present once
polled) or it is completed (data present and the waker cleared). -/
theorem ngReach_inv {T : Type} {s : NGFut T} (h : NGReach s) :
    s.live = true →
      (s.st.completed = false ∧ s.st.data = none
        ∧ (s.polled = true → s.st.waker.isSome = true))
      ∨ (s.st.completed = true ∧ s.st.waker = none ∧ ∃ v, s.st.data = some v) := by
  induction h with
  | init =>
    exact fun _ => Or.inl ⟨rfl, rfl, fun hp => by simp [ngInitFut] at hp⟩
  | @step s s' hr hs ih =>
    cases hs with
    | poll w hl hnf =>
      intro hlive
      rcases ih hl with ⟨hc, hd, _⟩ | ⟨hc, _, v, hd⟩
      · refine Or.inl ⟨?_, ?_, fun _ => ?_⟩ <;> simp [ngPollFn, hc, hd]
      · exfalso
        simp [ngPollFn, hc, hd, PollOutcome.isReady] at hlive
    | complete v =>
      intro hlive
      exact Or.inr ⟨rfl, rfl, v, rfl⟩

/-- Claim C6: in every reachable state of either future machine that has been
polled at least once and is still live, exactly one of the two conditions
holds: a waker is registered, or a result is present — never both and never
neither; this is preserved by every interleaving of `poll` and `complete`. -/
theorem futures_waker_xor_result {T : Type} (sa : NAFut T) (sg : NGFut T)
    (ha : NAReach sa) (hg : NGReach sg)
    (hal : sa.live = true) (hap : sa.polled = true)
    (hgl : sg.live = true) (hgp : sg.polled = true) :
    (((∃ w, sa.cell = some (.waker w)) ∧ ¬ ∃ v, sa.cell = some (.result v))
      ∨ ((∃ v, sa.cell = some (.result v)) ∧ ¬ ∃ w, sa.cell = some (.waker w)))
    ∧ ((sg.st.waker.isSome = true ∧ sg.st.data = none)
      ∨ (sg.st.waker = none ∧ ∃ v, sg.st.data = some v)) := by
  constructor
  · have h1 := (naReach_inv ha).1 hal hap
    rcases hcell : sa.cell with _ | x
    · exact absurd hcell h1
    · cases x with
      | waker w =>
        refine Or.inl ⟨⟨w, rfl⟩, ?_⟩
        rintro ⟨v, hv⟩
        simp at hv
      | result v =>
        refine Or.inr ⟨⟨v, rfl⟩, ?_⟩
        rintro ⟨w, hw⟩
        simp at hw
  · rcases ngReach_inv hg hgl with ⟨hc, hd, hw⟩ | ⟨hc, hw, v, hd⟩
    · exact Or.inl ⟨hw hgp, hd⟩
    · exact Or.inr ⟨hw, v, hd⟩

/-- Witness for C6: the invariant evaluated on the concrete states each
machine reaches after one poll of a fresh future (waker 5 respectively
waker 7 registered, no result yet). -/
theorem futures_waker_xor_result_witness :
    (((∃ w, (some (WakerOrResult.waker 5) : Option (WakerOrResult Unit))
          = some (.waker w))
        ∧ ¬ ∃ v, (some (WakerOrResult.waker 5) : Option (WakerOrResult Unit))
          = some (.result v))
      ∨ ((∃ v, (some (WakerOrResult.waker 5) : Option (WakerOrResult Unit))
          = some (.result v))
        ∧ ¬ ∃ w, (some (WakerOrResult.waker 5) : Option (WakerOrResult Unit))
          = some (.waker w)))
    ∧ (((some 7 : Option Nat).isSome = true ∧ (none : Option Unit) = none)
      ∨ ((some 7 : Option Nat) = none ∧ ∃ v, (none : Option Unit) = some v)) :=
  futures_waker_xor_result
    { cell := some (.waker 5), live := true, polled := true }
    { st := { completed := false, waker := some 7, data := none },
      live := true, polled := true }
    (NAReach.step NAReach.init (NAStep.poll naInitFut 5 rfl))
    (NGReach.step NGReach.init (NGStep.poll ngInitFut 7 rfl (fun hf => nomatch hf)))
    rfl rfl rfl rfl

/-- Claim C7: if the completion ran with result `v` before the consumer's
first poll, that first poll returns `Ready v` immediately, in both future
implementations: completing a fresh `Completer` slot stores the result
without panicking and the next poll takes it; completing a fresh
`SharedState` via the wrapper stores the translated status and the next poll
returns it as `Ready`, never `Pending`. -/
theorem complete_before_first_poll_returns_ready {T : Type} (v : T) (w : Nat)
    (st : BufferMapAsyncStatus) :
    completerComplete (none : Option (WakerOrResult T)) v
      = some (some (.result v), none)
    ∧ naPollFn (some (.result v)) w = (none, .ready v)
    ∧ buffer_map_future_wrapper ngInit st
      = ({ completed := true, waker := none, data := some (statusToResult st) },
         none)
    ∧ ngPollFn (buffer_map_future_wrapper ngInit st).1 w
      = ({ completed := true, waker := some w, data := none },
         .ready (statusToResult st)) :=
  ⟨rfl, rfl, rfl, rfl⟩

/-- Counterexample to C4 as stated: the completion path of the simple
shared-state future (`buffer_map_future_wrapper`) does not detect a second
invocation. Invoked a second time on the already-completed cell, it returns
a normal state, silently replacing the stored `Ok(())` with `Err`, instead
of being fatal. -/
theorem wrapper_double_complete_not_fatal :
    (buffer_map_future_wrapper (buffer_map_future_wrapper ngInit .success).1
        .failure)
      = ({ completed := true, waker := none, data := some (.error .mk) }, none)
    ∧ (buffer_map_future_wrapper ngInit .success).1.data
      = some (.ok ()) :=
  ⟨rfl, rfl⟩

/-- Claim C4 (amended): only the pinned `Completer`-based future detects a
second completion and treats it as fatal (`unreachable!`); a first completion
always succeeds there (waking a registered waker). The simple shared-state
future's wrapper callback performs no such check: invoked a second time it
returns normally and overwrites the stored result. -/
theorem double_complete_fatal_only_in_completer {T : Type} (v v' : T) (w : Nat)
    (s : SharedState (Except BufferAsyncError Unit))
    (st st' : BufferMapAsyncStatus) :
    completerComplete (some (.result v)) v' = none
    ∧ completerComplete (none : Option (WakerOrResult T)) v
      = some (some (.result v), none)
    ∧ completerComplete (some (.waker w)) v = some (some (.result v), some w)
    ∧ (buffer_map_future_wrapper (buffer_map_future_wrapper s st).1 st')
      = ({ completed := true, waker := none, data := some (statusToResult st') },
         none) :=
  ⟨rfl, rfl, rfl, rfl⟩

/-- Counterexample to C3 as stated: the fresh, never-polled future is a
reachable live state that has not completed, yet dropping it issues no
buffer-unmap call (`Drop` unmaps only when the slot holds a waker, and a
never-polled future's slot is empty). -/
theorem drop_unpolled_future_no_unmap :
    NAReach (naInitFut : NAFut Unit)
    ∧ (naInitFut : NAFut Unit).live = true
    ∧ (naInitFut : NAFut Unit).polled = false
    ∧ dropUnmaps (naInitFut : NAFut Unit).cell = false :=
  ⟨NAReach.init, rfl, rfl, rfl⟩

/-- Claim C3 (amended): in every reachable live state of the buffer-map
future, the drop issues the buffer-unmap cancellation exactly when the future
has been polled at least once (which is what initiates the mapping) and the
completion result is not stored in the slot; in particular a never-polled
future's drop issues no unmap. -/
theorem drop_unmaps_iff_waker_registered {T : Type} (s : NAFut T)
    (h : NAReach s) (hl : s.live = true) :
    (dropUnmaps s.cell = true ↔
      (s.polled = true ∧ ∀ v, s.cell ≠ some (.result v)))
    ∧ (s.polled = false → dropUnmaps s.cell = false) := by
  have inv := naReach_inv h
  constructor
  · constructor
    · intro hd
      rcases hcell : s.cell with _ | x
      · rw [hcell] at hd
        simp [dropUnmaps] at hd
      · cases x with
        | waker w =>
          refine ⟨inv.2 w hcell, fun v hv => ?_⟩
          simp at hv
        | result v =>
          rw [hcell] at hd
          simp [dropUnmaps] at hd
    · rintro ⟨hp, hnr⟩
      rcases hcell : s.cell with _ | x
      · exact absurd hcell (inv.1 hl hp)
      · cases x with
        | waker w => rfl
        | result v => exact absurd hcell (hnr v)
  · intro hp
    rcases hcell : s.cell with _ | x
    · rfl
    · cases x with
      | waker w => exact absurd (inv.2 w hcell) (by simp [hp])
      | result v => rfl

/-- Witness for C3 (amended): a future polled once (waker 5 registered, no
result) unmaps on drop, and the fresh never-polled future does not. -/
theorem drop_unmaps_iff_waker_registered_witness :
    dropUnmaps (some (WakerOrResult.waker 5) : Option (WakerOrResult Unit)) = true
    ∧ dropUnmaps (none : Option (WakerOrResult Unit)) = false := by
  have h1 := drop_unmaps_iff_waker_registered (T := Unit)
    { cell := some (.waker 5), live := true, polled := true }
    (NAReach.step NAReach.init (NAStep.poll naInitFut 5 rfl)) rfl
  have h2 := drop_unmaps_iff_waker_registered (T := Unit) naInitFut
    NAReach.init rfl
  exact ⟨h1.1.mpr ⟨rfl, fun v hv => by simp at hv⟩, h2.2 rfl⟩

/-- Embedding of `wgc::id::AdapterId` as used by `Adapter::request`
(`src/lib.rs`): either a real adapter id or the `ERROR` sentinel the local
variable is initialized with. -/
inductive AdapterId where
  | valid (idx : Nat)
  | sentinel
deriving DecidableEq, Repr

/-- Embedding of the `Adapter` handle of `src/lib.rs`. -/
structure Adapter where
  id : AdapterId
deriving DecidableEq, Repr

/-- Embedding of `Adapter::request` (lib.rs:502): the local `id` starts as
`AdapterId::ERROR`; `wgpu_request_adapter_async` may invoke the callback,
which overwrites `id` (modelled by `callbackWrite`); the function then
returns the adapter wrapped in `Some` on every path. -/
def Adapter.request (callbackWrite : Option AdapterId) : Option Adapter :=
  let id := match callbackWrite with
    | some written => written
    | none => AdapterId.sentinel
  some { id := id }

/-- Embedding of the hub error returned by `request_adapter` when no adapter
satisfies the options. -/
inductive RequestAdapterError where
  | notFound
deriving DecidableEq, Repr

/-- Embedding of `Context::instance_request_adapter` (direct.rs:639): the hub
returns a `Result` (modelled as `Except`), and the function resolves the
ready future with `id.ok()` — `none` exactly on the error case. -/
def instance_request_adapter (backendResult : Except RequestAdapterError Nat) :
    Option Nat :=
  backendResult.toOption

/-- Calls issued to the backend during device teardown, in program order. -/
inductive BackendCall where
  | devicePoll (forceWait : Bool)
  | deviceDropCall
  | deviceDestroy
deriving DecidableEq, Repr

/-- Whether a backend call releases/tears down the device's resources. -/
def BackendCall.isTeardown : BackendCall → Bool
  | .deviceDropCall => true
  | .deviceDestroy => true
  | _ => false

/-- Embedding of `Context::device_drop` (direct.rs:1153): under
`cfg(not(wasm32))` a blocking `device_poll(device.id, true)` (force-wait),
then, additionally under `cfg(feature = "metal-auto-capture")`, the backend
`device_drop` teardown. -/
def device_drop_trace (wasm32 metalAutoCapture : Bool) : List BackendCall :=
  (if wasm32 then [] else [.devicePoll true])
    ++ (if !wasm32 && metalAutoCapture then [.deviceDropCall] else [])

/-- Embedding of `Drop for Device` (lib.rs:838): `wgpu_device_poll(id, true)`,
then, under `cfg(feature = "metal-auto-capture")`,
`wgpu_device_destroy(id)`. -/
def device_drop_trace_lib (metalAutoCapture : Bool) : List BackendCall :=
  [.devicePoll true] ++ (if metalAutoCapture then [.deviceDestroy] else [])

/-- Scans a call trace from the head: no teardown call may occur before the
first blocking force-wait poll. -/
def noTeardownBeforeForcedPoll : List BackendCall → Bool
  | [] => true
  | .devicePoll true :: _ => true
  | c :: rest => !c.isTeardown && noTeardownBeforeForcedPoll rest

/-- Identity of an `Arc<Mutex<ErrorSinkRaw>>` allocation; `Arc::clone`
preserves it. -/
abbrev ErrorSinkId := Nat

/-- Identity of an installed `uncaptured_handler`. -/
abbrev ErrorHandler := Nat

/-- Embedding of the `direct.rs` `Device`: hub id plus the shared error
sink. -/
structure DirectDevice where
  id : Nat
  error_sink : ErrorSinkId
deriving DecidableEq, Repr

/-- Embedding of the `direct.rs` `Buffer`: hub id plus the error sink handle
captured at creation. -/
structure DirectBuffer where
  id : Nat
  error_sink : ErrorSinkId
deriving DecidableEq, Repr

/-- Embedding of the `direct.rs` `Texture`. -/
structure DirectTexture where
  id : Nat
  error_sink : ErrorSinkId
deriving DecidableEq, Repr

/-- Embedding of the `direct.rs` `CommandEncoder`. -/
structure DirectCommandEncoder where
  id : Nat
  error_sink : ErrorSinkId
deriving DecidableEq, Repr

/-- Embedding of `Context::device_create_buffer` (direct.rs:1018): the new
`Buffer` captures an `Arc::clone` of the device's error sink, i.e. the same sink
identity. -/
def device_create_buffer (device : DirectDevice) (newId : Nat) : DirectBuffer :=
  { id := newId, error_sink := device.error_sink }

/-- Embedding of `Context::device_create_texture` (direct.rs:1044). -/
def device_create_texture (device : DirectDevice) (newId : Nat) : DirectTexture :=
  { id := newId, error_sink := device.error_sink }

/-- Embedding of `Context::device_create_command_encoder`
(direct.rs:1110). -/
def device_create_command_encoder (device : DirectDevice) (newId : Nat) :
    DirectCommandEncoder :=
  { id := newId, error_sink := device.error_sink }

/-- Embedding of `Context::device_on_uncaptured_error` (direct.rs:1185):
locks the device's sink and replaces its `uncaptured_handler`. The store maps
each sink identity to its current handler. -/
def device_on_uncaptured_error (sinks : ErrorSinkId → ErrorHandler)
    (device : DirectDevice) (h : ErrorHandler) : ErrorSinkId → ErrorHandler :=
  fun sid => if sid = device.error_sink then h else sinks sid

/-- Embedding of `ErrorSinkRaw::handle_error` (direct.rs:1749): a validation
error raised through a resource holding sink `sid` is delivered to that
sink's current `uncaptured_handler`. -/
def handler_receiving (sinks : ErrorSinkId → ErrorHandler)
    (sid : ErrorSinkId) : ErrorHandler :=
  sinks sid

end Wgpu

namespace Wgpu

/-- Claim C1, evaluated on the code: the `Bounded -> Bounded` assertion accepts the spec's canonical
out-of-bound sub-range. Taking `buffer.range(0, 10)` (a 10-unit region) and
ranging it at sub-offset 4 with size 10 succeeds in the code (the assertion
checks `parent.offset + size <= parent.size`, i.e. `0 + 10 <= 10`), producing
a range of end 14 inside a 10-unit bound, even though `4 + 10 > 10`; the
`Unsure -> Unsure` combination likewise accepts it (it only checks
`old_size >= new_size`); and conversely an in-bound request (sub-offset 0,
size 5 of a 10-unit region at parent offset 8) is rejected. -/
theorem bounded_range_assert_uses_parent_offset :
    BufferRangeBounded.rangeBounded
        { buffer := sampleBuffer, offset := 0, size := 10 } 4 10
      = some { buffer := sampleBuffer, offset := 4, size := 10 }
    ∧ 4 + 10 > 10
    ∧ BufferRangeUnsure.rangeUnsure
        { buffer := sampleBuffer, offset := 0, size := some 10 } 4 (some 10)
      = some { buffer := sampleBuffer, offset := 4, size := some 10 }
    ∧ BufferRangeBounded.rangeBounded
        { buffer := sampleBuffer, offset := 8, size := 10 } 0 5
      = none
    ∧ 0 + 5 ≤ 10 := by
  refine ⟨?_, by decide, ?_, ?_, by decide⟩ <;> decide

/-- Claim C9: every range combination is additive on offsets. A bare `Buffer` is
treated as offset `0`; each `range` implementation yields a range whose offset
is the parent's offset plus the sub-offset (for the two fallible combinations,
whenever they succeed); and composing two `ToEnd` rangings equals a single
`ToEnd` ranging at the summed offset, for a bare buffer and for all three
typestates of parent range. -/
theorem range_offset_additive (b : Buffer) (ru : BufferRangeUnbounded)
    (rb : BufferRangeBounded) (rq : BufferRangeUnsure)
    (a c s : BufferAddress) (os : Option BufferAddress) :
    (b.rangeToEnd a).offset = 0 + a
    ∧ (b.rangeBounded a s).offset = 0 + a
    ∧ (b.rangeUnsure a os).offset = 0 + a
    ∧ (ru.rangeToEnd a).offset = ru.offset + a
    ∧ (ru.rangeBounded a s).offset = ru.offset + a
    ∧ (ru.rangeUnsure a os).offset = ru.offset + a
    ∧ (rb.rangeToEnd a).offset = rb.offset + a
    ∧ (ru.rangeToEnd a).rangeToEnd c = ru.rangeToEnd (a + c)
    ∧ (rb.rangeToEnd a).rangeToEnd c = rb.rangeToEnd (a + c)
    ∧ (b.rangeToEnd a).rangeToEnd c = b.rangeToEnd (a + c)
    ∧ ((rq.rangeToEnd a).bind fun r => r.rangeToEnd c) = rq.rangeToEnd (a + c)
    ∧ (∀ r, rb.rangeBounded a s = some r → r.offset = rb.offset + a)
    ∧ (∀ r, rq.rangeUnsure a os = some r → r.offset = rq.offset + a) := by
  refine ⟨(Nat.zero_add a).symm, (Nat.zero_add a).symm, (Nat.zero_add a).symm,
    rfl, rfl, rfl, rfl, ?_, ?_, ?_, ?_, ?_, ?_⟩
  · simp [BufferRangeUnbounded.rangeToEnd, Nat.add_assoc]
  · simp [BufferRangeBounded.rangeToEnd, Nat.add_assoc]
  · simp [Buffer.rangeToEnd, BufferRangeUnbounded.rangeToEnd]
  · cases h : rq.size <;>
      simp [BufferRangeUnsure.rangeToEnd, BufferRangeUnsure.rangeUnsure, h,
        Nat.add_assoc]
  · intro r hr
    unfold BufferRangeBounded.rangeBounded at hr
    split at hr
    · cases hr; rfl
    · cases hr
  · intro r hr
    unfold BufferRangeUnsure.rangeUnsure at hr
    split at hr
    · cases hr; rfl
    · cases hr; rfl
    · cases hr; rfl
    · split at hr
      · cases hr; rfl
      · cases hr

/-- Witness for C9: the two fallible combinations evaluated at concrete
in-bound inputs, with their offsets given by the additive law. Parent
`Bounded` range at offset 2 with size 8, sub-offset 3 and size 5, yields
offset `2 + 3`; parent `Unsure` range at offset 1 with known size 9,
sub-offset 3 and new size 4, yields offset `1 + 3`. -/
theorem range_offset_additive_witness :
    ({ buffer := sampleBuffer, offset := 5, size := 5 } :
        BufferRangeBounded).offset = 2 + 3
    ∧ ({ buffer := sampleBuffer, offset := 4, size := some 4 } :
        BufferRangeUnsure).offset = 1 + 3 := by
  have h := range_offset_additive sampleBuffer
    { buffer := sampleBuffer, offset := 0 }
    { buffer := sampleBuffer, offset := 2, size := 8 }
    { buffer := sampleBuffer, offset := 1, size := some 9 }
    3 0 5 (some 4)
  exact ⟨h.2.2.2.2.2.2.2.2.2.2.2.1
      { buffer := sampleBuffer, offset := 5, size := 5 } (by decide),
    h.2.2.2.2.2.2.2.2.2.2.2.2
      { buffer := sampleBuffer, offset := 4, size := some 4 } (by decide)⟩

/-- Claim C2: for every encoder, every `Bounded` source range and every destination
range, the recorded backend copy call carries `source.offset` as its
destination-offset argument, and the call does not depend on the destination
range's own offset field at all. -/
theorem copy_buffer_to_buffer_ignores_destination_offset
    (enc : CommandEncoderHandle) (src : BufferRangeBounded)
    (dst : BufferRangeUnbounded) (d : BufferAddress) :
    (copy_buffer_to_buffer enc src dst).destination_offset = src.offset
    ∧ copy_buffer_to_buffer enc src { dst with offset := d }
      = copy_buffer_to_buffer enc src dst := ⟨rfl, rfl⟩

/-- Claim C5, evaluated on the code: `lib.rs`'s `Adapter::request` returns
`Some` on every path — when no adapter is found (the callback never writes),
it returns an adapter handle carrying the `ERROR` sentinel id rather than
`None`, contradicting both the claim and the function's own doc comment. The
`direct.rs` `instance_request_adapter` path does return `None` on the error
case. -/
theorem adapter_request_never_none :
    (∀ cb, (Adapter.request cb).isSome = true)
    ∧ Adapter.request none = some { id := AdapterId.sentinel }
    ∧ instance_request_adapter (Except.error RequestAdapterError.notFound) = none := by
  refine ⟨fun cb => ?_, rfl, rfl⟩
  cases cb <;> rfl

/-- Claim C8: for every build configuration, the device-drop paths of both
`direct.rs` (`Context::device_drop`) and `lib.rs` (`Drop for Device`) never
issue a teardown call before the blocking force-wait poll, and whenever the
poll is compiled in it is the first backend call of the trace. -/
theorem device_drop_poll_before_teardown (w m : Bool) :
    noTeardownBeforeForcedPoll (device_drop_trace w m) = true
    ∧ noTeardownBeforeForcedPoll (device_drop_trace_lib m) = true
    ∧ (device_drop_trace false m).head? = some (.devicePoll true)
    ∧ (device_drop_trace_lib m).head? = some (.devicePoll true) := by
  cases w <;> cases m <;> exact ⟨rfl, rfl, rfl, rfl⟩

/-- Claim C10: every resource created by a device factory operation captures
the creating device's error-sink identity, so an error raised later through
the resource is delivered to the handler installed on the device's sink, even
when the handler is installed after the resource was created. -/
theorem created_resources_share_device_sink (device : DirectDevice)
    (bid tid eid : Nat) (h : ErrorHandler) (sinks : ErrorSinkId → ErrorHandler) :
    (device_create_buffer device bid).error_sink = device.error_sink
    ∧ (device_create_texture device tid).error_sink = device.error_sink
    ∧ (device_create_command_encoder device eid).error_sink = device.error_sink
    ∧ handler_receiving (device_on_uncaptured_error sinks device h)
        (device_create_buffer device bid).error_sink = h
    ∧ handler_receiving (device_on_uncaptured_error sinks device h)
        (device_create_texture device tid).error_sink = h
    ∧ handler_receiving (device_on_uncaptured_error sinks device h)
        (device_create_command_encoder device eid).error_sink = h := by
  refine ⟨rfl, rfl, rfl, ?_, ?_, ?_⟩ <;>
    simp [handler_receiving, device_on_uncaptured_error,
      device_create_buffer, device_create_texture,
      device_create_command_encoder]

end Wgpu
